import Mathlib

/-!
# Verification of the visitor-pattern expression printer

A shallow embedding of `src/python/visitor_pattern.py`: an immutable
expression tree (`Binary`, `Literal`), a visitor interface with double
dispatch (`accept`), and the concrete `ExprPrinter` visitor that renders a
tree to a parenthesized string.  The embedding follows the Python source:

* `Token` is the `Enum` with members `PLUS = 1` and `MINUS = 2`.  Python's
  `str` on a plain `Enum` member produces the qualified form
  `"Token.PLUS"` (class name, dot, member name), which is what
  `'({} {} {})'.format(element.operator, ...)` inserts.
* `Literal` holds a value of Python type `int | float | str | None`; the
  printer applies the builtin `str` to it.  Integer, text and absent
  values are modelled (`PyVal`); the floating-point kind is outside the
  embedding.
* `ExprPrinter.visit_binary` returns
  `'({} {} {})'.format(element.operator, print_expr(left), print_expr(right))`,
  i.e. `"(" ++ str(operator) ++ " " ++ render(left) ++ " " ++ render(right) ++ ")"`.
* `ExprPrinter.visit_literal` returns `str(element.value)`.

Besides the direct functional embedding there are three auxiliary models,
each justified against the same source lines:

* a state-threading model (`print_exprSt`) in which every call receives and
  returns the printer instance and the node, reflecting that the Python
  method bodies are single `return` statements with no field assignment —
  used for the determinism and purity claims;
* a fuel model (`print_exprFuel`) making the recursion depth explicit —
  used for the termination claim;
* a dynamically-typed model (`Dyn`) in which constructor arguments are
  arbitrary runtime values, reflecting that Python does not check the
  annotations `left: Expr`, `operator: Token`, `right: Expr` at runtime —
  used for the construction-validation claim.
-/

/-- The operator enumeration: `class Token(Enum): PLUS = 1; MINUS = 2`. -/
inductive Token where
  | PLUS
  | MINUS
deriving DecidableEq, Repr

namespace Token

/-- The numeric value assigned to each member (`PLUS = 1`, `MINUS = 2`). -/
def value : Token → Nat
  | .PLUS => 1
  | .MINUS => 2

/-- The `.name` attribute of the enum member. -/
def memberName : Token → String
  | .PLUS => "PLUS"
  | .MINUS => "MINUS"

/-- Python's `str` on a plain `Enum` member: `"ClassName.MEMBER"`, so
`str(Token.PLUS) = "Token.PLUS"`.  This is what `str.format` inserts for a
`{}` field holding the member. -/
def pyStr (t : Token) : String := "Token." ++ t.memberName

end Token

/-- One decimal digit as a character, `0 ≤ d ≤ 9` intended. -/
def pyDigitChar (d : Nat) : Char := Char.ofNat (48 + d)

/-- The decimal digits of `n`, most significant first, by repeated division;
the first argument is fuel, `n + 1` is always enough. -/
def pyNatDigitsAux : Nat → Nat → List Char
  | 0, _ => []
  | fuel + 1, n =>
    if n < 10 then [pyDigitChar n]
    else pyNatDigitsAux fuel (n / 10) ++ [pyDigitChar (n % 10)]

/-- Python's `str` on a non-negative `int`: its decimal digits. -/
def pyNatStr (n : Nat) : String := String.mk (pyNatDigitsAux (n + 1) n)

/-- Python's `str` on an `int`: decimal digits, `"-"`-prefixed when
negative. -/
def pyIntStr (i : Int) : String :=
  if i < 0 then "-" ++ pyNatStr i.natAbs else pyNatStr i.natAbs

/-- The value stored in a `Literal`, Python type `int | float | str | None`.
The floating-point alternative is outside the embedding: Python renders a
float by the IEEE-754 binary64 shortest-round-trip `repr` (switching to
scientific notation outside roughly `1e-4 ≤ |x| < 1e16`), which has no
faithful shallow model here, so no theorem below quantifies over it. -/
inductive PyVal where
  | none
  | int (i : Int)
  | str (s : String)
deriving DecidableEq, Repr

/-- Python's builtin `str` on a literal value: `str(None) = "None"`, an
`int` renders in decimal, a `str` renders verbatim. -/
def PyVal.pyStr : PyVal → String
  | .none => "None"
  | .int i => pyIntStr i
  | .str s => s

/-- The expression tree: `Literal(value)` and `Binary(left, operator, right)`.
Children and the operator are typed, as the constructor annotations state;
the dynamically-typed construction path is modelled separately in `Dyn`. -/
inductive Expr where
  | literal (value : PyVal)
  | binary (left : Expr) (operator : Token) (right : Expr)
deriving DecidableEq, Repr

/-- The `Visitor` interface: one operation per node variant, result type `T`
fixed by the concrete visitor.  `visit_binary` receives the `Binary` node
through its three fields, `visit_literal` receives the `Literal` node
through its `value` field. -/
structure Visitor (T : Type) where
  visit_binary : Expr → Token → Expr → T
  visit_literal : PyVal → T

/-- Double dispatch: `Binary.accept` returns `visitor.visit_binary(self)`,
`Literal.accept` returns `visitor.visit_literal(self)`.  The method bodies
are single `return` statements. -/
def Expr.accept {T : Type} (e : Expr) (visitor : Visitor T) : T :=
  match e with
  | .literal value => visitor.visit_literal value
  | .binary left operator right => visitor.visit_binary left operator right

namespace ExprPrinter

/-- `visit_literal(element)`: `return str(element.value)`. -/
def visit_literal (value : PyVal) : String := PyVal.pyStr value

/-- `print_expr(expr)`: `return expr.accept(self)`, with the dispatch into
`visit_binary` / `visit_literal` unfolded so the recursion is structural.
`visit_binary` is `return '({} {} {})'.format(element.operator,
self.print_expr(element.left), self.print_expr(element.right))`. -/
def print_expr : Expr → String
  | .literal value => visit_literal value
  | .binary left operator right =>
      "(" ++ Token.pyStr operator ++ " " ++ print_expr left ++ " "
        ++ print_expr right ++ ")"

/-- `visit_binary(element)` as its own definition, for the dispatch lemma. -/
def visit_binary (left : Expr) (operator : Token) (right : Expr) : String :=
  "(" ++ Token.pyStr operator ++ " " ++ print_expr left ++ " "
    ++ print_expr right ++ ")"

/-- The `ExprPrinter` as a record of the `Visitor[str]` interface. -/
def asVisitor : Visitor String :=
  { visit_binary := visit_binary, visit_literal := visit_literal }

end ExprPrinter

/-- The tree built in `__main__`: `Binary(Literal(3), Token.PLUS, Literal(5))`. -/
def demoExpr : Expr :=
  Expr.binary (Expr.literal (PyVal.int 3)) Token.PLUS (Expr.literal (PyVal.int 5))

/-- The nested tree of spec scenario 4:
`Binary(Binary(Literal(1), PLUS, Literal(2)), MINUS, Literal(3))`. -/
def demoNested : Expr :=
  Expr.binary
    (Expr.binary (Expr.literal (PyVal.int 1)) Token.PLUS (Expr.literal (PyVal.int 2)))
    Token.MINUS (Expr.literal (PyVal.int 3))

/-!
## State-threading model

`ExprPrinter` has an empty class body apart from methods: an instance has
no fields.  Each Python method receives the instance (`self`) and the node
and its body is a single `return` of an expression built from attribute
reads; there is no assignment outside the constructors.  The
state-threading embedding makes that explicit: every call takes the
printer instance and the node, and returns the result string together with
the instance and the node as they stand after the call, each node rebuilt
from the post-call states of its parts.
-/

/-- An `ExprPrinter` instance: the class declares no fields. -/
structure ExprPrinterState where

/-- `print_expr` with the printer instance and the node threaded through:
returns `(output, instance after the call, node after the call)`.  The
binary case reads `element.operator`, renders the left child, then the
right child, threading the instance, and rebuilds the node from the fields
as they stand afterwards. -/
def print_exprSt : ExprPrinterState → Expr → String × ExprPrinterState × Expr
  | p, .literal value => (ExprPrinter.visit_literal value, p, .literal value)
  | p, .binary left operator right =>
      let l := print_exprSt p left
      let r := print_exprSt l.2.1 right
      ("(" ++ Token.pyStr operator ++ " " ++ l.1 ++ " " ++ r.1 ++ ")",
        r.2.1, .binary l.2.2 operator r.2.2)

/-!
## Fuel model

Rendering one expression is a single chain of nested `print_expr` calls;
the fuel model counts that nesting.  `print_exprFuel fuel e` runs the same
recursion but refuses to nest more than `fuel` calls.
-/

/-- The depth of the tree: the nesting of `print_expr` calls needed to
render it (a leaf takes one call). -/
def Expr.depth : Expr → Nat
  | .literal _ => 1
  | .binary left _ right => 1 + max left.depth right.depth

/-- `print_expr` with an explicit bound on call nesting: `none` when the
recursion would need more than `fuel` nested calls. -/
def print_exprFuel : Nat → Expr → Option String
  | 0, _ => none
  | _ + 1, .literal value => some (ExprPrinter.visit_literal value)
  | fuel + 1, .binary left operator right => do
      let sl ← print_exprFuel fuel left
      let sr ← print_exprFuel fuel right
      some ("(" ++ Token.pyStr operator ++ " " ++ sl ++ " " ++ sr ++ ")")

/-!
## Counting model for the parenthesis invariant
-/

/-- The number of `Binary` nodes in the tree. -/
def Expr.binCount : Expr → Nat
  | .literal _ => 0
  | .binary left _ right => 1 + left.binCount + right.binCount

/-- Every literal in the tree holds an integer value. -/
def Expr.intTree : Expr → Bool
  | .literal value => match value with | .int _ => true | _ => false
  | .binary left _ right => left.intTree && right.intTree

/-- Occurrences of character `c` in string `s`. -/
def countChar (c : Char) (s : String) : Nat := s.data.count c

/-- Dyck-style balance check: scan the characters keeping the number of
currently open parentheses; a closing parenthesis with none open fails, and
the scan must end with none open. -/
def balancedAux : List Char → Nat → Bool
  | [], depth => depth == 0
  | c :: cs, depth =>
      if c = '(' then balancedAux cs (depth + 1)
      else if c = ')' then
        match depth with
        | 0 => false
        | depth' + 1 => balancedAux cs depth'
      else balancedAux cs depth

/-- The parentheses of `s` are balanced. -/
def balancedParens (s : String) : Bool := balancedAux s.data 0

/-- The printer's output, described directly as a character list by
recursion on the tree; proved equal to `(print_expr e).data` below, so the
parenthesis facts can be read off the shape of the tree. -/
def renderChars : Expr → List Char
  | .literal value => (ExprPrinter.visit_literal value).data
  | .binary left operator right =>
      '(' :: ((Token.pyStr operator).data
        ++ ' ' :: (renderChars left ++ ' ' :: (renderChars right ++ [')'])))

/-!
## Dynamically-typed construction model

Python checks none of the annotations `left: Expr`, `operator: Token`,
`right: Expr` at runtime, and the bodies of `Binary.__init__` and
`Literal.__init__` are plain field assignments with no validation and no
`raise`.  The `Dyn` model replays that: constructor arguments are arbitrary
runtime values, construction always succeeds, and errors can only arise
later, when `print_expr` invokes `.accept` on a value that has no such
method.
-/

namespace Dyn

/-- A runtime value: `None`, an `int`, a `str`, a `Token` member, or one of
the two node objects with arbitrary field contents. -/
inductive Val where
  | none
  | int (i : Int)
  | str (s : String)
  | token (t : Token)
  | literalObj (value : Val)
  | binaryObj (left : Val) (operator : Val) (right : Val)
deriving DecidableEq, Repr

/-- How a dynamic run can fail, or leave the model. -/
inductive Err where
  /-- `AttributeError`: `print_expr` called `.accept` on a value that is not
  a `Literal` or `Binary` instance. -/
  | attrError
  /-- The run reached Python behaviour the model does not cover (the
  default address-bearing `repr` of a node object inside a `{}` field). -/
  | unmodelled
deriving DecidableEq, Repr

/-- `Binary.__init__(self, left, operator, right)`: three field
assignments, no validation, no `raise` — construction always succeeds and
stores the arguments as given. -/
def Binary.init (left operator right : Val) : Except Err Val :=
  .ok (.binaryObj left operator right)

/-- `Literal.__init__(self, value)`: one field assignment, no validation. -/
def Literal.init (value : Val) : Except Err Val :=
  .ok (.literalObj value)

/-- Python's `str` on a runtime value, where the model covers it: the
default object `repr` of a node instance is address-dependent and left out. -/
def strOfVal : Val → Except Err String
  | .none => .ok "None"
  | .int i => .ok (pyIntStr i)
  | .str s => .ok s
  | .token t => .ok (Token.pyStr t)
  | .literalObj _ => .error .unmodelled
  | .binaryObj _ _ _ => .error .unmodelled

/-- `print_expr` over runtime values: dispatch on the dynamic type.  On a
`Literal` instance, `visit_literal` returns `str(element.value)`.  On a
`Binary` instance, the `format` call evaluates its arguments left to right:
`element.operator` (a field read), `self.print_expr(element.left)`,
`self.print_expr(element.right)`, then inserts `str` of each.  On any other
value, `.accept` does not exist: `AttributeError`. -/
def print_expr : Val → Except Err String
  | .literalObj value => strOfVal value
  | .binaryObj left operator right => do
      let sl ← print_expr left
      let sr ← print_expr right
      let sop ← strOfVal operator
      .ok ("(" ++ sop ++ " " ++ sl ++ " " ++ sr ++ ")")
  | .none => .error .attrError
  | .int _ => .error .attrError
  | .str _ => .error .attrError
  | .token _ => .error .attrError

/-- On well-typed trees the dynamic model agrees with the typed printer. -/
def ofExpr : Expr → Val
  | .literal value =>
      .literalObj (match value with
        | .none => .none
        | .int i => .int i
        | .str s => .str s)
  | .binary left operator right =>
      .binaryObj (ofExpr left) (.token operator) (ofExpr right)

end Dyn

/-!
## Model-agreement and helper lemmas
-/

/-- `print_expr` is exactly `expr.accept(self)` for the printer visitor:
the structural recursion in its definition is the unfolding of the double
dispatch. -/
theorem ExprPrinter.print_expr_eq_accept (e : Expr) :
    ExprPrinter.print_expr e = e.accept ExprPrinter.asVisitor := by
  cases e <;> rfl

/-- The state-threading model agrees with the functional one and passes the
instance and the node through unchanged. -/
theorem print_exprSt_eq (p : ExprPrinterState) (e : Expr) :
    print_exprSt p e = (ExprPrinter.print_expr e, p, e) := by
  induction e generalizing p with
  | literal value => rfl
  | binary left operator right ihl ihr =>
      simp [print_exprSt, ExprPrinter.print_expr, ihl, ihr]

/-- Concatenation of strings concatenates their character lists. -/
theorem data_append (s t : String) : (s ++ t).data = s.data ++ t.data := rfl

/-- With fuel at least the tree's depth, the fuel model computes the same
string as the functional printer. -/
theorem print_exprFuel_of_depth_le (e : Expr) :
    ∀ fuel, e.depth ≤ fuel → print_exprFuel fuel e = some (ExprPrinter.print_expr e) := by
  induction e with
  | literal value =>
      intro fuel h
      match fuel, h with
      | fuel + 1, _ => rfl
  | binary left operator right ihl ihr =>
      intro fuel h
      match fuel with
      | 0 =>
          exact absurd h (by simp [Expr.depth])
      | fuel + 1 =>
          have hm : max left.depth right.depth ≤ fuel := by
            have h' : 1 + max left.depth right.depth ≤ fuel + 1 := h
            omega
          have hl := ihl fuel (le_trans (Nat.le_max_left _ _) hm)
          have hr := ihr fuel (le_trans (Nat.le_max_right _ _) hm)
          simp [print_exprFuel, hl, hr, ExprPrinter.print_expr, Bind.bind, Option.bind]

/-- With fuel short of the tree's depth, the fuel model runs out. -/
theorem print_exprFuel_of_lt_depth (e : Expr) :
    ∀ fuel, fuel < e.depth → print_exprFuel fuel e = none := by
  induction e with
  | literal value =>
      intro fuel h
      have h0 : fuel = 0 := by
        have h' : fuel < 1 := h
        omega
      subst h0; rfl
  | binary left operator right ihl ihr =>
      intro fuel h
      match fuel with
      | 0 => rfl
      | fuel + 1 =>
          have hm : fuel < max left.depth right.depth := by
            have h' : fuel + 1 < 1 + max left.depth right.depth := h
            omega
          by_cases hl : fuel < left.depth
          · simp [print_exprFuel, ihl fuel hl, Bind.bind, Option.bind]
          · have hld : left.depth ≤ fuel := Nat.le_of_not_lt hl
            have hrd : fuel < right.depth := by omega
            simp [print_exprFuel, print_exprFuel_of_depth_le left fuel hld,
              ihr fuel hrd, Bind.bind, Option.bind]

/-- A character that is not a parenthesis is skipped by the balance scan. -/
theorem balancedAux_skip (c : Char) (hc : c ≠ '(' ∧ c ≠ ')') (cs : List Char) (d : Nat) :
    balancedAux (c :: cs) d = balancedAux cs d := by
  simp [balancedAux, hc.1, hc.2]

/-- An opening parenthesis raises the scan depth. -/
theorem balancedAux_cons_open (cs : List Char) (d : Nat) :
    balancedAux ('(' :: cs) d = balancedAux cs (d + 1) := rfl

/-- A closing parenthesis lowers a positive scan depth. -/
theorem balancedAux_cons_close (cs : List Char) (d : Nat) :
    balancedAux (')' :: cs) (d + 1) = balancedAux cs d := rfl

/-- A paren-free block is transparent to the balance scan. -/
theorem balancedAux_no_paren (cs : List Char) (hob : '(' ∉ cs) (hcb : ')' ∉ cs)
    (ys : List Char) (d : Nat) :
    balancedAux (cs ++ ys) d = balancedAux ys d := by
  induction cs with
  | nil => rfl
  | cons c cs ih =>
      rw [List.cons_append,
        balancedAux_skip c
          ⟨by rintro rfl; exact hob (List.mem_cons_self _ _),
           by rintro rfl; exact hcb (List.mem_cons_self _ _)⟩,
        ih (fun hmem => hob (List.mem_cons_of_mem _ hmem))
          (fun hmem => hcb (List.mem_cons_of_mem _ hmem))]

/-- Decimal digit characters are not parentheses. -/
theorem pyDigitChar_ne_paren (d : Nat) (hd : d < 10) :
    pyDigitChar d ≠ '(' ∧ pyDigitChar d ≠ ')' := by
  interval_cases d <;> exact ⟨by decide, by decide⟩

/-- Every character emitted for a natural number is a decimal digit. -/
theorem mem_pyNatDigitsAux (fuel : Nat) :
    ∀ n c, c ∈ pyNatDigitsAux fuel n → ∃ d, d < 10 ∧ c = pyDigitChar d := by
  induction fuel with
  | zero => intro n c hc; simp [pyNatDigitsAux] at hc
  | succ fuel ih =>
      intro n c hc
      by_cases h : n < 10
      · simp [pyNatDigitsAux, h] at hc
        exact ⟨n, h, hc⟩
      · simp [pyNatDigitsAux, h] at hc
        rcases hc with hc | hc
        · exact ih (n / 10) c hc
        · exact ⟨n % 10, Nat.mod_lt n (by omega), hc⟩

/-- Python's rendering of an integer contains no parentheses. -/
theorem pyIntStr_no_paren (i : Int) :
    '(' ∉ (pyIntStr i).data ∧ ')' ∉ (pyIntStr i).data := by
  have hnat : ∀ n, '(' ∉ (pyNatStr n).data ∧ ')' ∉ (pyNatStr n).data := by
    intro n
    constructor <;> intro hmem <;>
      rcases mem_pyNatDigitsAux (n + 1) n _ hmem with ⟨d, hd, heq⟩ <;>
      [exact (pyDigitChar_ne_paren d hd).1 heq.symm;
       exact (pyDigitChar_ne_paren d hd).2 heq.symm]
  unfold pyIntStr
  by_cases h : i < 0
  · simp only [h, if_true, data_append]
    constructor <;> intro hmem <;> rw [List.mem_append] at hmem <;>
      rcases hmem with hmem | hmem
    · exact absurd hmem (by decide)
    · exact (hnat i.natAbs).1 hmem
    · exact absurd hmem (by decide)
    · exact (hnat i.natAbs).2 hmem
  · simp only [h, if_false]
    exact hnat i.natAbs

/-- The operator's rendering contains no parentheses. -/
theorem token_pyStr_no_paren (t : Token) :
    '(' ∉ (Token.pyStr t).data ∧ ')' ∉ (Token.pyStr t).data := by
  cases t <;> exact ⟨by decide, by decide⟩

/-- The printer's character output is `renderChars`. -/
theorem print_expr_data (e : Expr) :
    (ExprPrinter.print_expr e).data = renderChars e := by
  induction e with
  | literal value => rfl
  | binary left operator right ihl ihr =>
      show ("(" ++ Token.pyStr operator ++ " " ++ ExprPrinter.print_expr left
        ++ " " ++ ExprPrinter.print_expr right ++ ")").data = _
      simp only [data_append, ihl, ihr, List.append_assoc]
      rfl

/-- Rendering an all-integer tree is transparent to the balance scan: it
opens exactly as many parentheses as it closes and never closes an
unopened one, whatever follows. -/
theorem balancedAux_renderChars (e : Expr) (he : e.intTree = true) :
    ∀ ys d, balancedAux (renderChars e ++ ys) d = balancedAux ys d := by
  induction e with
  | literal value =>
      intro ys d
      cases value with
      | none => exact absurd he (by decide)
      | int i => exact balancedAux_no_paren _ (pyIntStr_no_paren i).1 (pyIntStr_no_paren i).2 ys d
      | str s => exact absurd he (by simp [Expr.intTree])
  | binary left operator right ihl ihr =>
      intro ys d
      have hel : left.intTree = true := by
        have h' : (left.intTree && right.intTree) = true := he
        exact (Bool.and_eq_true_iff.mp h').1
      have her : right.intTree = true := by
        have h' : (left.intTree && right.intTree) = true := he
        exact (Bool.and_eq_true_iff.mp h').2
      show balancedAux (('(' :: ((Token.pyStr operator).data
        ++ ' ' :: (renderChars left ++ ' ' :: (renderChars right ++ [')'])))) ++ ys) d = _
      rw [List.cons_append, balancedAux_cons_open, List.append_assoc,
        balancedAux_no_paren _ (token_pyStr_no_paren operator).1 (token_pyStr_no_paren operator).2,
        List.cons_append, balancedAux_skip ' ' (by decide), List.append_assoc,
        ihl hel, List.cons_append, balancedAux_skip ' ' (by decide), List.append_assoc,
        ihr her, List.singleton_append, balancedAux_cons_close]

/-- Each parenthesis kind occurs in the rendering of an all-integer tree
exactly once per `Binary` node. -/
theorem count_renderChars (e : Expr) (he : e.intTree = true) :
    (renderChars e).count '(' = e.binCount ∧ (renderChars e).count ')' = e.binCount := by
  induction e with
  | literal value =>
      cases value with
      | none => exact absurd he (by decide)
      | int i =>
          constructor
          · exact List.count_eq_zero.mpr (pyIntStr_no_paren i).1
          · exact List.count_eq_zero.mpr (pyIntStr_no_paren i).2
      | str s => exact absurd he (by simp [Expr.intTree])
  | binary left operator right ihl ihr =>
      have hel : left.intTree = true := by
        have h' : (left.intTree && right.intTree) = true := he
        exact (Bool.and_eq_true_iff.mp h').1
      have her : right.intTree = true := by
        have h' : (left.intTree && right.intTree) = true := he
        exact (Bool.and_eq_true_iff.mp h').2
      have hopl := List.count_eq_zero.mpr (token_pyStr_no_paren operator).1
      have hopr := List.count_eq_zero.mpr (token_pyStr_no_paren operator).2
      constructor <;>
        simp [renderChars, List.count_cons, List.count_append, hopl, hopr,
          (ihl hel).1, (ihl hel).2, (ihr her).1, (ihr her).2, Expr.binCount] <;>
        omega

/-- On well-typed trees the dynamic model agrees with the typed printer. -/
theorem Dyn.print_expr_ofExpr (e : Expr) :
    Dyn.print_expr (Dyn.ofExpr e) = .ok (ExprPrinter.print_expr e) := by
  induction e with
  | literal value =>
      cases value <;> rfl
  | binary left operator right ihl ihr =>
      simp [Dyn.ofExpr, Dyn.print_expr, ihl, ihr, Dyn.strOfVal,
        ExprPrinter.print_expr, Bind.bind, Except.bind]

/-!
## The claims
-/

/-- C1 (counterexample): the claim renders the operator position as the
bare member name `nameOf(op)`; on the `__main__` tree the code instead
inserts Python's `str` of the enum member, which carries the class
qualifier, so the claimed string is not the output. -/
theorem print_binary_bare_name_refuted :
    ExprPrinter.print_expr demoExpr ≠
      "(" ++ Token.memberName Token.PLUS ++ " "
        ++ ExprPrinter.print_expr (Expr.literal (PyVal.int 3)) ++ " "
        ++ ExprPrinter.print_expr (Expr.literal (PyVal.int 5)) ++ ")" := by decide

/-- C1 (amended): rendering `Binary(l, op, r)` returns
`"(" ++ str(op) ++ " " ++ render(l) ++ " " ++ render(r) ++ ")"`, with
`str(op)` the qualified enum form `"Token." ++ memberName op`, `render` the
same recursive dispatch on each child, and the left subtree's rendering
standing before the right subtree's rendering. -/
theorem print_binary_compositional (left right : Expr) (operator : Token) :
    ExprPrinter.print_expr (Expr.binary left operator right) =
      "(" ++ Token.pyStr operator ++ " " ++ ExprPrinter.print_expr left ++ " "
        ++ ExprPrinter.print_expr right ++ ")" := rfl

/-- C2 (counterexample): `Binary(Literal(3), PLUS, Literal(5))` does not
render as `"(PLUS 3 5)"`: `'{}'.format` inserts `str(Token.PLUS)`, which is
`"Token.PLUS"`, not the bare member name. -/
theorem print_demo_not_bare_plus :
    ExprPrinter.print_expr demoExpr ≠ "(PLUS 3 5)" := by decide

/-- C2 (amended): the operator position renders as Python's `str` of the
enum member — the qualified name `"Token.PLUS"` / `"Token.MINUS"` — and
`Binary(Literal(3), PLUS, Literal(5))` renders as `"(Token.PLUS 3 5)"`. -/
theorem operator_renders_qualified_name :
    Token.pyStr Token.PLUS = "Token.PLUS" ∧
    Token.pyStr Token.MINUS = "Token.MINUS" ∧
    ExprPrinter.print_expr demoExpr = "(Token.PLUS 3 5)" :=
  ⟨rfl, rfl, by decide⟩

/-- Rendering `Literal(v)` returns `str(v)` for the modelled value kinds:
integers render in decimal (sign included), text renders verbatim; in
particular `Literal(3)` renders as `"3"` and `Literal("x")` as `"x"`.
Supporting result only: the float kind of `int | float | str | None` is
outside the embedding, so this does not cover every kind the source's
`Literal` accepts. -/
theorem print_literal_str_value (value : PyVal) :
    ExprPrinter.print_expr (Expr.literal value) = PyVal.pyStr value ∧
    ExprPrinter.print_expr (Expr.literal (PyVal.int 3)) = "3" ∧
    ExprPrinter.print_expr (Expr.literal (PyVal.str "x")) = "x" ∧
    ExprPrinter.print_expr (Expr.literal (PyVal.int (-17))) = "-17" :=
  ⟨rfl, by decide, by decide, by decide⟩

/-- C4: rendering a `Literal` holding the absent value (Python `None`)
returns `"None"`, the language's textual form of the absent value. -/
theorem print_literal_none :
    ExprPrinter.print_expr (Expr.literal PyVal.none) = "None" := rfl

/-- C5: `accept` is pure double dispatch: on a `Binary` node it returns
exactly `visitor.visit_binary(self)` and on a `Literal` node exactly
`visitor.visit_literal(self)`, for every visitor — an equality of values,
with no other computation (and no effects: the model is a function of its
arguments alone). -/
theorem accept_double_dispatch {T : Type} (v : Visitor T) (left right : Expr)
    (operator : Token) (value : PyVal) :
    (Expr.binary left operator right).accept v = v.visit_binary left operator right ∧
    (Expr.literal value).accept v = v.visit_literal value :=
  ⟨rfl, rfl⟩

/-- C6 (counterexample): constructing `Binary` with absent (`None`)
children and a non-`Token` operator is not rejected: `Binary.__init__`
performs no validation, so construction succeeds and stores the arguments
as given. -/
theorem binary_init_no_validation :
    Dyn.Binary.init Dyn.Val.none (Dyn.Val.str "nonsense") Dyn.Val.none
      = Except.ok (Dyn.Val.binaryObj Dyn.Val.none (Dyn.Val.str "nonsense") Dyn.Val.none) := rfl

/-- C6 (amended): construction never validates — `Binary(left, operator,
right)` succeeds for arbitrary runtime arguments and stores them unchecked,
so an ill-formed `Binary` node can exist; the error surfaces only when
rendering dispatches into an absent child (`AttributeError` on `.accept`).
The annotated constraints are static type hints, not runtime checks. -/
theorem binary_init_unchecked_defers_error (left operator right : Dyn.Val) :
    Dyn.Binary.init left operator right
        = Except.ok (Dyn.Val.binaryObj left operator right) ∧
    Dyn.print_expr (Dyn.Val.binaryObj Dyn.Val.none operator right)
        = Except.error Dyn.Err.attrError :=
  ⟨rfl, rfl⟩

/-- C7: rendering is deterministic: the output string does not depend on
the printer instance, and rendering the same tree again — with the
instance and the tree exactly as the first call returned them — produces
the identical string. -/
theorem print_deterministic (p q : ExprPrinterState) (e : Expr) :
    (print_exprSt p e).1 = (print_exprSt q e).1 ∧
    (print_exprSt (print_exprSt p e).2.1 (print_exprSt p e).2.2).1
      = (print_exprSt p e).1 := by
  simp [print_exprSt_eq]

/-- C8: rendering is pure with respect to state: the tree that comes out of
the state-threading render — rebuilt node by node from the fields as they
stand after the call — is structurally equal to the input tree, and the
printer instance is unchanged. -/
theorem print_pure_frame (p : ExprPrinterState) (e : Expr) :
    (print_exprSt p e).2.2 = e ∧ (print_exprSt p e).2.1 = p := by
  simp [print_exprSt_eq]

/-- C9: rendering terminates with no failure path: `print_expr` is a total
function (its definition is accepted by structural recursion into strict
subtrees), and the bounded-recursion model succeeds and agrees with it
exactly when the call-nesting allowance reaches the tree's depth. -/
theorem print_fuel_iff_depth (e : Expr) (fuel : Nat) :
    print_exprFuel fuel e = some (ExprPrinter.print_expr e) ↔ e.depth ≤ fuel := by
  constructor
  · intro h
    by_contra hlt
    rw [print_exprFuel_of_lt_depth e fuel (Nat.lt_of_not_le hlt)] at h
    exact Option.noConfusion h
  · exact print_exprFuel_of_depth_le e fuel

/-- C10: for an all-integer tree the rendered string has balanced
parentheses, and each parenthesis kind occurs exactly once per `Binary`
node — literal rendering contributes none. -/
theorem print_parens_balanced (e : Expr) (h : e.intTree = true) :
    balancedParens (ExprPrinter.print_expr e) = true ∧
    countChar '(' (ExprPrinter.print_expr e) = e.binCount ∧
    countChar ')' (ExprPrinter.print_expr e) = e.binCount := by
  refine ⟨?_, ?_, ?_⟩
  · unfold balancedParens
    rw [print_expr_data]
    have h2 := balancedAux_renderChars e h [] 0
    rw [List.append_nil] at h2
    rw [h2]; rfl
  · unfold countChar
    rw [print_expr_data]
    exact (count_renderChars e h).1
  · unfold countChar
    rw [print_expr_data]
    exact (count_renderChars e h).2

/-- C10 (witness): the parenthesis invariant evaluated on the nested tree
`Binary(Binary(Literal(1), PLUS, Literal(2)), MINUS, Literal(3))`. -/
theorem print_parens_balanced_witness :
    demoNested.intTree = true ∧
    (balancedParens (ExprPrinter.print_expr demoNested) = true ∧
     countChar '(' (ExprPrinter.print_expr demoNested) = demoNested.binCount ∧
     countChar ')' (ExprPrinter.print_expr demoNested) = demoNested.binCount) :=
  ⟨by decide, print_parens_balanced demoNested (by decide)⟩
